import Mathlib

/-!
Shallow embedding of `react/features/stream-effects/audio-capture/AudioStreamCapture.ts`.

The class `AudioStreamCapture` is modelled as a pure state machine:
its mutable fields become the record `CaptureState`, each method becomes a
function from state to state paired with the list of messages posted to the
parent window, and the asynchronous browser callbacks (the level-sampling
interval, per-source VAD silence timeouts, the `ScriptProcessorNode`
audio-process callback, and the `MediaRecorder` data/error callbacks) become
explicit operations that the environment may invoke whenever the corresponding
browser resource exists.  Web-platform facts used by the model: `setInterval`
callbacks stop once `clearInterval` has run, `setTimeout` callbacks stop once
`clearTimeout` has run, a disconnected `ScriptProcessorNode` no longer fires,
and `MediaRecorder.stop()` fires one final `dataavailable` event carrying the
data buffered since the last timeslice.  Analyser RMS readout is abstracted as
an environment-supplied rational per track; timestamps (`Date.now()`) are not
carried in events.  Absent display names are `none` (the JavaScript falsy
fallbacks on names map `none` to the fallback label).
-/

namespace AudioStreamCapture

/-- Exact fractions standing in for the JavaScript floating-point level
values: numerator over positive denominator, multiplied and compared exactly
(cross-multiplication), without normalization.  All operations are
structurally recursive so every concrete run evaluates inside the kernel. -/
structure Frac where
  num : Int
  den : Int
deriving DecidableEq

/-- Exact multiplication of fractions. -/
def Frac.mul (a b : Frac) : Frac := ⟨a.num * b.num, a.den * b.den⟩

/-- Strict comparison by cross-multiplication (denominators positive in all
uses). -/
def Frac.lt (a b : Frac) : Bool := a.num * b.den < b.num * a.den

/-- `Math.min(1, a)`. -/
def Frac.minOne (a : Frac) : Frac := if a.lt ⟨1, 1⟩ then a else ⟨1, 1⟩

/-- The six outbound message kinds posted to the parent window. -/
inductive Event where
  | audioChunk (size : Nat) (mime : String)
  | pcmFrame (participantId : String) (participantName : String)
  | audioLevels (levels : List (String × Frac))
  | voiceActivity (participantId : String) (speaking : Bool)
  | captureStatus (status : String) (errMsg : Option String)
  | transcriptionStatus (enabled : Bool)
deriving DecidableEq

/-- One entry of the `tracks` map (interface `TrackInfo`).  The audio-graph
node handles are represented by their observable content: `hasScriptProcessor`
records whether a raw-PCM `ScriptProcessorNode` was created for this source,
and `vadTimeout` holds the absolute deadline of a pending VAD silence timer. -/
structure TrackInfo where
  participantId : String
  displayName : String
  hasScriptProcessor : Bool
  lastLevel : Frac
  isSpeaking : Bool
  vadTimeout : Option Nat
deriving DecidableEq

/-- Caller-supplied options (interface `AudioCaptureOptions`); every field
is optional. -/
structure AudioCaptureOptions where
  timeSlice : Option Nat := none
  mimeType : Option String := none
  includeLocal : Option Bool := none
  includeRemote : Option Bool := none
  enableLevels : Option Bool := none
  levelInterval : Option Nat := none
  enableVAD : Option Bool := none
  vadThreshold : Option Frac := none
  rawPCM : Option Bool := none
  pcmBufferSize : Option Nat := none
deriving DecidableEq

/-- The options after overlaying the provided options onto the defaults
(the spread `{ defaults, ...options }` in `start`). -/
structure ResolvedOptions where
  timeSlice : Nat
  mimeType : String
  includeLocal : Bool
  includeRemote : Bool
  enableLevels : Bool
  levelInterval : Nat
  enableVAD : Bool
  vadThreshold : Frac
  rawPCM : Bool
  pcmBufferSize : Nat
deriving DecidableEq

/-- Overlay the provided options onto the defaults, as in `start`. -/
def resolveOptions (o : AudioCaptureOptions) : ResolvedOptions :=
  { timeSlice := o.timeSlice.getD 1000
    mimeType := o.mimeType.getD "audio/webm;codecs=opus"
    includeLocal := o.includeLocal.getD true
    includeRemote := o.includeRemote.getD true
    enableLevels := o.enableLevels.getD true
    levelInterval := o.levelInterval.getD 100
    enableVAD := o.enableVAD.getD true
    vadThreshold := o.vadThreshold.getD ⟨1, 100⟩
    rawPCM := o.rawPCM.getD false
    pcmBufferSize := o.pcmBufferSize.getD 4096 }

/-- One track as reported by the Redux store (`state['features/base/tracks']`).
`hasJitsiTrack` models the truthiness of `track.jitsiTrack`, and `hasStream`
the truthiness of `track.jitsiTrack.getOriginalStream?.() || track.jitsiTrack.stream`. -/
structure ExternalTrack where
  mediaType : String
  hasJitsiTrack : Bool
  isLocal : Bool
  participantId : String
  hasStream : Bool
deriving DecidableEq

/-- Display-name state (`state['features/base/participants']`). -/
structure ParticipantsState where
  localName : Option String
  remote : List (String × Option String)
deriving DecidableEq

/-- A snapshot of the parts of the Redux store read by `syncTracksFromStore`. -/
structure StoreSnapshot where
  tracks : List ExternalTrack
  participants : ParticipantsState
deriving DecidableEq

/-- The host environment: whether `window.parent` exists, whether it differs
from `window`, and which MIME types `MediaRecorder.isTypeSupported` accepts. -/
structure Env where
  hasParent : Bool
  parentDistinct : Bool
  isTypeSupported : String → Bool

/-- The mutable fields of the `AudioStreamCapture` singleton.  `mediaRecorder`
is `some (buffered, mime)` while a recorder is referenced and recording, where
`buffered` is the amount of audio gathered since the last timeslice delivery.
`pendingFlush` holds the final `dataavailable` deliveries that
`MediaRecorder.stop()` has queued but the event loop has not yet run. -/
structure CaptureState where
  audioContextAllocated : Bool
  destinationAllocated : Bool
  mediaRecorder : Option (Nat × String)
  pendingFlush : List (Nat × String)
  tracks : List (String × TrackInfo)
  isCapturing : Bool
  isTranscriptionEnabled : Bool
  options : ResolvedOptions
  subscribed : Bool
  previousTrackIds : List String
  levelIntervalActive : Bool
deriving DecidableEq

/-- Initial state of the singleton (the field initializers of the class). -/
def initialState : CaptureState :=
  { audioContextAllocated := false
    destinationAllocated := false
    mediaRecorder := none
    pendingFlush := []
    tracks := []
    isCapturing := false
    isTranscriptionEnabled := true
    options := resolveOptions {}
    subscribed := false
    previousTrackIds := []
    levelIntervalActive := false }

/-- `window.parent && window.parent !== window`. -/
def emitGuard (env : Env) : Bool := env.hasParent && env.parentDistinct

/-- Method `sendToParent`: posts the message only when embedded. -/
def sendToParent (env : Env) (e : Event) : List Event :=
  if emitGuard env then [e] else []

/-- Method `sendStatusToParent`. -/
def sendStatusToParent (env : Env) (status : String) (errMsg : Option String) : List Event :=
  if emitGuard env then [Event.captureStatus status errMsg] else []

/-- Method `sendTranscriptionStatusToParent`. -/
def sendTranscriptionStatusToParent (env : Env) (enabled : Bool) : List Event :=
  if emitGuard env then [Event.transcriptionStatus enabled] else []

/-- Lookup in an association list modelling a `Map` keyed by strings. -/
def lookupKey {α : Type} : List (String × α) → String → Option α
  | [], _ => none
  | (k, v) :: rest, key => if k = key then some v else lookupKey rest key

/-- Deletion from an association list (`Map.delete`). -/
def eraseKey {α : Type} : List (String × α) → String → List (String × α)
  | [], _ => []
  | (k, v) :: rest, key => if k = key then rest else (k, v) :: eraseKey rest key

/-- Membership in a list modelling a `Set` of strings. -/
def hasStr : List String → String → Bool
  | [], _ => false
  | k :: rest, key => if k = key then true else hasStr rest key

/-- `Set.add`, keeping insertion order. -/
def setAdd (xs : List String) (k : String) : List String :=
  if hasStr xs k then xs else xs ++ [k]

/-- Constant `VAD_SILENCE_DURATION` (ms before marking as not speaking). -/
def VAD_SILENCE_DURATION : Nat := 500

/-- Method `getIsCapturing`. -/
def getIsCapturing (s : CaptureState) : Bool := s.isCapturing

/-- Method `getIsTranscriptionEnabled`. -/
def getIsTranscriptionEnabled (s : CaptureState) : Bool := s.isTranscriptionEnabled

/-- Method `handleVAD` acting on one `TrackInfo`.  `now` is the current time,
used to turn `setTimeout(..., VAD_SILENCE_DURATION)` into an absolute
deadline. -/
def handleVAD (env : Env) (now : Nat) (info : TrackInfo) (currentlySpeaking : Bool) :
    TrackInfo × List Event :=
  if currentlySpeaking then
    let info1 := { info with vadTimeout := none }
    if info1.isSpeaking = false then
      ({ info1 with isSpeaking := true },
        sendToParent env (Event.voiceActivity info1.participantId true))
    else (info1, [])
  else
    if info.isSpeaking = true ∧ info.vadTimeout = none then
      ({ info with vadTimeout := some (now + VAD_SILENCE_DURATION) }, [])
    else (info, [])

/-- Replace the entry for `id`, marking it not speaking and clearing its
timer handle — the body of the VAD silence timeout. -/
def setTrackNotSpeaking : List (String × TrackInfo) → String → List (String × TrackInfo)
  | [], _ => []
  | (k, v) :: rest, id =>
      if k = id then (k, { v with isSpeaking := false, vadTimeout := none }) :: rest
      else (k, v) :: setTrackNotSpeaking rest id

/-- A pending VAD silence timer for track `id` fires: the `setTimeout` closure
in `handleVAD` runs (it does not check `isCapturing`).  The callback can only
run while the timer is pending; `clearTimeout` removes it. -/
def vadTimerFire (env : Env) (s : CaptureState) (id : String) : CaptureState × List Event :=
  match lookupKey s.tracks id with
  | some info =>
      match info.vadTimeout with
      | some _ =>
          ({ s with tracks := setTrackNotSpeaking s.tracks id },
            sendToParent env (Event.voiceActivity info.participantId false))
      | none => (s, [])
  | none => (s, [])

/-- Method `addTrack`.  The media stream argument is always a live stream by
the time this is called, so it is not represented.  Node construction is
modelled as succeeding (a construction failure is caught and merely skips the
source, leaving the state unchanged, which coincides with the guard branches). -/
def addTrack (s : CaptureState) (trackId participantId displayName : String) : CaptureState :=
  if s.audioContextAllocated = false ∨ s.destinationAllocated = false then s
  else if (lookupKey s.tracks trackId).isSome then s
  else
    { s with tracks := s.tracks ++ [(trackId,
        { participantId := participantId
          displayName := displayName
          hasScriptProcessor := s.options.rawPCM
          lastLevel := ⟨0, 1⟩
          isSpeaking := false
          vadTimeout := none })] }

/-- Method `removeTrack`: clears the VAD timer and disconnects the taps of
the entry (represented by removing the entry), a no-op when absent. -/
def removeTrack (s : CaptureState) (trackId : String) : CaptureState :=
  match lookupKey s.tracks trackId with
  | some _ => { s with tracks := eraseKey s.tracks trackId }
  | none => s

/-- The stable source key: `'local-audio'` or `'remote-<participantId>'`. -/
def trackKey (t : ExternalTrack) : String :=
  if t.isLocal then "local-audio" else "remote-" ++ t.participantId

/-- Display-name resolution in `syncTracksFromStore`. -/
def resolveDisplayName (ps : ParticipantsState) (t : ExternalTrack) : String :=
  if t.isLocal then (ps.localName.getD "You")
  else if t.participantId ≠ "" then
    (((lookupKey ps.remote t.participantId).getD none).getD "Participant")
  else "Unknown"

/-- The add phase of `syncTracksFromStore`: walk the reported track list,
collecting the current key set and adding unseen admissible tracks. -/
def syncProcess (ps : ParticipantsState) :
    List ExternalTrack → CaptureState → List String → CaptureState × List String
  | [], s, current => (s, current)
  | t :: rest, s, current =>
      if t.mediaType ≠ "audio" then syncProcess ps rest s current
      else if t.hasJitsiTrack = false then syncProcess ps rest s current
      else if t.isLocal = true ∧ s.options.includeLocal = false then syncProcess ps rest s current
      else if t.isLocal = false ∧ s.options.includeRemote = false then syncProcess ps rest s current
      else
        let key := trackKey t
        let current1 := setAdd current key
        if (lookupKey s.tracks key).isSome then syncProcess ps rest s current1
        else
          let name := resolveDisplayName ps t
          if t.hasStream then
            syncProcess ps rest
              (addTrack s key (if t.participantId = "" then "local" else t.participantId) name)
              current1
          else syncProcess ps rest s current1

/-- The removal phase of `syncTracksFromStore`: remove every key of the
previous snapshot that is absent from the current key set. -/
def removeVanished (current : List String) : List String → CaptureState → CaptureState
  | [], s => s
  | k :: rest, s =>
      if hasStr current k then removeVanished current rest s
      else removeVanished current rest (removeTrack s k)

/-- Method `syncTracksFromStore` (the store is set once at app start, so only
the `isCapturing` guard remains). -/
def syncTracksFromStore (snap : StoreSnapshot) (s : CaptureState) : CaptureState :=
  if s.isCapturing = false then s
  else
    let r := syncProcess snap.participants snap.tracks s []
    let s1 := removeVanished r.2 r.1.previousTrackIds r.1
    { s1 with previousTrackIds := r.2 }

/-- Method `cleanup`: stop the level interval, unsubscribe, stop the recorder
(queueing its final buffered `dataavailable` delivery), clear all VAD timers
and track taps, release the graph, and clear `isCapturing`.  Note that
`isTranscriptionEnabled` and `options` are not touched. -/
def cleanup (s : CaptureState) : CaptureState :=
  { s with
      levelIntervalActive := false
      subscribed := false
      pendingFlush :=
        match s.mediaRecorder with
        | some (b, m) => s.pendingFlush ++ [(b, m)]
        | none => s.pendingFlush
      mediaRecorder := none
      tracks := []
      previousTrackIds := []
      audioContextAllocated := false
      destinationAllocated := false
      isCapturing := false }

/-- Method `start`.  Returns the new state, the posted messages, and
`some message` when the call throws.  `snap` is the store state read during
the initial reconciliation. -/
def start (env : Env) (snap : StoreSnapshot) (s : CaptureState) (o : AudioCaptureOptions) :
    CaptureState × List Event × Option String :=
  if s.isCapturing = true then (s, [], none)
  else
    let opts := resolveOptions o
    let s1 := { s with options := opts, audioContextAllocated := true,
                       destinationAllocated := true }
    if opts.rawPCM = false ∧ env.isTypeSupported opts.mimeType = false ∧
        env.isTypeSupported "audio/webm" = false then
      (cleanup s1,
        sendStatusToParent env "error" (some "MediaRecorder does not support audio/webm"),
        some "MediaRecorder does not support audio/webm")
    else
      let mime := if env.isTypeSupported opts.mimeType then opts.mimeType else "audio/webm"
      let s2 := if opts.rawPCM then s1 else { s1 with mediaRecorder := some (0, mime) }
      let s3 := { s2 with isCapturing := true }
      let s4 := if opts.enableLevels then { s3 with levelIntervalActive := true } else s3
      let s5 := { syncTracksFromStore snap s4 with subscribed := true }
      (s5, sendStatusToParent env "started" none, none)

/-- Method `stop`. -/
def stop (env : Env) (s : CaptureState) : CaptureState × List Event :=
  if s.isCapturing = false then (s, [])
  else (cleanup s, sendStatusToParent env "stopped" none)

/-- Method `enableTranscription`. -/
def enableTranscription (env : Env) (s : CaptureState) : CaptureState × List Event :=
  if s.isCapturing = false then (s, [])
  else ({ s with isTranscriptionEnabled := true }, sendTranscriptionStatusToParent env true)

/-- Method `disableTranscription`. -/
def disableTranscription (env : Env) (s : CaptureState) : CaptureState × List Event :=
  if s.isCapturing = false then (s, [])
  else ({ s with isTranscriptionEnabled := false }, sendTranscriptionStatusToParent env false)

/-- Method `toggleTranscription`; also returns the boolean the method returns. -/
def toggleTranscription (env : Env) (s : CaptureState) : (CaptureState × List Event) × Bool :=
  if s.isTranscriptionEnabled = true then
    let r := disableTranscription env s
    (r, r.1.isTranscriptionEnabled)
  else
    let r := enableTranscription env s
    (r, r.1.isTranscriptionEnabled)

/-- Insert or overwrite one participant level in the per-tick snapshot
(JavaScript object assignment `levels[participantId] = level`). -/
def upsertLevel : List (String × Frac) → String → Frac → List (String × Frac)
  | [], pid, lv => [(pid, lv)]
  | (p, v) :: rest, pid, lv =>
      if p = pid then (p, lv) :: rest else (p, v) :: upsertLevel rest pid lv

/-- Body of the level-sampling loop over `this.tracks`: per entry, scale the
analyser RMS readout (`f id`) by 1.4, clamp to 1, store `lastLevel`, record
the level under the participant id, and run VAD when enabled. -/
def levelTickAux (env : Env) (opts : ResolvedOptions) (now : Nat) (f : String → Frac) :
    List (String × TrackInfo) → List (String × Frac) →
    List (String × TrackInfo) × List (String × Frac) × List Event
  | [], acc => ([], acc, [])
  | (id, info) :: rest, acc =>
      let level : Frac := Frac.minOne ((f id).mul ⟨7, 5⟩)
      let info1 := { info with lastLevel := level }
      let r1 : TrackInfo × List Event :=
        if opts.enableVAD then handleVAD env now info1 (opts.vadThreshold.lt level)
        else (info1, [])
      let acc1 := upsertLevel acc info.participantId level
      let r2 := levelTickAux env opts now f rest acc1
      ((id, r1.1) :: r2.1, r2.2.1, r1.2 ++ r2.2.2)

/-- One firing of the `setInterval` callback installed by
`startLevelMonitoring`.  The callback only exists while the interval is set
(the outer guard); the inner `isCapturing` guard is the code's own check. -/
def levelSamplerTick (env : Env) (now : Nat) (f : String → Frac) (s : CaptureState) :
    CaptureState × List Event :=
  if s.levelIntervalActive = false then (s, [])
  else if s.isCapturing = false then (s, [])
  else
    let r := levelTickAux env s.options now f s.tracks []
    ({ s with tracks := r.1 },
      r.2.2 ++ (if r.2.1 = [] then [] else sendToParent env (Event.audioLevels r.2.1)))

/-- One firing of a track's `ScriptProcessorNode.onaudioprocess` callback.
The node exists only for raw-PCM entries and only while the entry is wired. -/
def audioProcessTick (env : Env) (s : CaptureState) (id : String) : CaptureState × List Event :=
  match lookupKey s.tracks id with
  | some info =>
      if info.hasScriptProcessor = false then (s, [])
      else if s.isCapturing = false then (s, [])
      else if s.isTranscriptionEnabled = false then (s, [])
      else (s, sendToParent env (Event.pcmFrame info.participantId info.displayName))
  | none => (s, [])

/-- The audio runtime hands `n` more buffered units to the active recorder. -/
def recorderBuffer (s : CaptureState) (n : Nat) : CaptureState :=
  match s.mediaRecorder with
  | some (b, m) => { s with mediaRecorder := some (b + n, m) }
  | none => s

/-- A timeslice `dataavailable` delivery of the active recorder: the
`ondataavailable` handler posts the chunk when its size is positive. -/
def recorderDataTick (env : Env) (s : CaptureState) : CaptureState × List Event :=
  match s.mediaRecorder with
  | some (b, m) =>
      ({ s with mediaRecorder := some (0, m) },
        if 0 < b then sendToParent env (Event.audioChunk b m) else [])
  | none => (s, [])

/-- The recorder's `onerror` handler fires while a recorder is referenced. -/
def recorderErrorTick (env : Env) (s : CaptureState) : CaptureState × List Event :=
  match s.mediaRecorder with
  | some _ => (s, sendStatusToParent env "error" (some "MediaRecorder error"))
  | none => (s, [])

/-- The event loop runs one queued final `dataavailable` delivery left by
`MediaRecorder.stop()`; the still-attached `ondataavailable` handler posts
the chunk when its size is positive. -/
def recorderFlushFire (env : Env) (s : CaptureState) : CaptureState × List Event :=
  match s.pendingFlush with
  | [] => (s, [])
  | (b, m) :: rest =>
      ({ s with pendingFlush := rest },
        if 0 < b then sendToParent env (Event.audioChunk b m) else [])

/-- The public operations and environment callbacks of the capture manager. -/
inductive Op where
  | startOp (snap : StoreSnapshot) (o : AudioCaptureOptions)
  | stopOp
  | syncOp (snap : StoreSnapshot)
  | addTrackOp (trackId participantId displayName : String)
  | removeTrackOp (trackId : String)
  | enableTranscriptionOp
  | disableTranscriptionOp
  | toggleTranscriptionOp
  | levelTickOp (now : Nat) (f : String → Frac)
  | vadFireOp (trackId : String)
  | audioProcessOp (trackId : String)
  | bufferOp (n : Nat)
  | recorderDataOp
  | recorderErrorOp
  | flushOp

/-- Whether an operation is a `start` call. -/
def Op.isStart : Op → Bool
  | .startOp _ _ => true
  | _ => false

/-- Apply one operation. -/
def applyOp (env : Env) (s : CaptureState) : Op → CaptureState × List Event
  | .startOp snap o => ((start env snap s o).1, (start env snap s o).2.1)
  | .stopOp => stop env s
  | .syncOp snap => (syncTracksFromStore snap s, [])
  | .addTrackOp trackId participantId displayName =>
      (addTrack s trackId participantId displayName, [])
  | .removeTrackOp trackId => (removeTrack s trackId, [])
  | .enableTranscriptionOp => enableTranscription env s
  | .disableTranscriptionOp => disableTranscription env s
  | .toggleTranscriptionOp => (toggleTranscription env s).1
  | .levelTickOp now f => levelSamplerTick env now f s
  | .vadFireOp trackId => vadTimerFire env s trackId
  | .audioProcessOp trackId => audioProcessTick env s trackId
  | .bufferOp n => (recorderBuffer s n, [])
  | .recorderDataOp => recorderDataTick env s
  | .recorderErrorOp => recorderErrorTick env s
  | .flushOp => recorderFlushFire env s

/-- Run a sequence of operations, concatenating the posted messages. -/
def runOps (env : Env) : CaptureState → List Op → CaptureState × List Event
  | s, [] => (s, [])
  | s, op :: rest =>
      let r1 := applyOp env s op
      let r2 := runOps env r1.1 rest
      (r2.1, r1.2 ++ r2.2)

/-- Fire every VAD silence timer whose deadline has been reached by time `t`. -/
def fireDue (env : Env) (t : Nat) :
    List (String × TrackInfo) → List (String × TrackInfo) × List Event
  | [] => ([], [])
  | (id, info) :: rest =>
      let r1 : TrackInfo × List Event :=
        match info.vadTimeout with
        | some d =>
            if d ≤ t then
              ({ info with isSpeaking := false, vadTimeout := none },
                sendToParent env (Event.voiceActivity info.participantId false))
            else (info, [])
        | none => (info, [])
      let r2 := fireDue env t rest
      ((id, r1.1) :: r2.1, r1.2 ++ r2.2)

/-- Timed run of the level sampler: at each listed instant, first run the
timers that have come due, then run the sampling tick with that instant's
analyser readout. -/
def runTimed (env : Env) : CaptureState → List (Nat × (String → Frac)) → CaptureState × List Event
  | s, [] => (s, [])
  | s, (t, f) :: rest =>
      let r1 := fireDue env t s.tracks
      let s1 := { s with tracks := r1.1 }
      let r2 := levelSamplerTick env t f s1
      let r3 := runTimed env r2.1 rest
      (r3.1, r1.2 ++ r2.2 ++ r3.2)

/-- Whether an event is a voice-activity event. -/
def isVoiceEv : Event → Bool
  | .voiceActivity _ _ => true
  | _ => false

/-- Whether an event is an audio-chunk event. -/
def Event.isChunk : Event → Bool
  | .audioChunk _ _ => true
  | _ => false

/-- All per-source and graph state is released: empty registry (hence no VAD
timers), empty previous snapshot, no audio context, destination, level
interval, or recorder. -/
def NotCapturingClean (s : CaptureState) : Prop :=
  s.tracks = [] ∧ s.previousTrackIds = [] ∧ s.audioContextAllocated = false ∧
  s.destinationAllocated = false ∧ s.levelIntervalActive = false ∧ s.mediaRecorder = none

/-- A stopped session: not capturing and every callback source released
(registry, level interval, graph, recorder). -/
def Quiescent (s : CaptureState) : Prop :=
  s.isCapturing = false ∧ s.tracks = [] ∧ s.levelIntervalActive = false ∧
  s.audioContextAllocated = false ∧ s.destinationAllocated = false ∧ s.mediaRecorder = none

/-- Keys of the track registry, in insertion order. -/
def trackIds (s : CaptureState) : List String := s.tracks.map Prod.fst

/-! Concrete environments and store snapshots used to run the model. -/

/-- An embedded page whose recorder supports every MIME type. -/
def envT : Env :=
  { hasParent := true, parentDistinct := true, isTypeSupported := fun _ => true }

/-- An embedded page whose recorder supports no MIME type at all. -/
def envNoFormat : Env :=
  { hasParent := true, parentDistinct := true, isTypeSupported := fun _ => false }

/-- Participants: a named local participant, remote `A` named and remote `B`
nameless. -/
def psAB : ParticipantsState :=
  { localName := some "Me", remote := [("A", some "Alice"), ("B", none)] }

/-- The local audio track. -/
def trackLocal : ExternalTrack :=
  { mediaType := "audio", hasJitsiTrack := true, isLocal := true,
    participantId := "", hasStream := true }

/-- Remote participant A's audio track. -/
def trackRemoteA : ExternalTrack :=
  { mediaType := "audio", hasJitsiTrack := true, isLocal := false,
    participantId := "A", hasStream := true }

/-- Remote participant B's audio track. -/
def trackRemoteB : ExternalTrack :=
  { mediaType := "audio", hasJitsiTrack := true, isLocal := false,
    participantId := "B", hasStream := true }

/-- Remote A's audio track while its underlying stream is unavailable. -/
def trackNoStream : ExternalTrack :=
  { mediaType := "audio", hasJitsiTrack := true, isLocal := false,
    participantId := "A", hasStream := false }

/-- Store reporting `[local, remote-A]`. -/
def snapLA : StoreSnapshot := { tracks := [trackLocal, trackRemoteA], participants := psAB }

/-- Store reporting `[remote-A, remote-B]`. -/
def snapAB : StoreSnapshot := { tracks := [trackRemoteA, trackRemoteB], participants := psAB }

/-- Store reporting only `remote-A`. -/
def snapA1 : StoreSnapshot := { tracks := [trackRemoteA], participants := psAB }

/-- Store reporting only the streamless remote-A track. -/
def snapNS : StoreSnapshot := { tracks := [trackNoStream], participants := psAB }

/-- An analyser readout above the default threshold for every source
(level `7/10` after scaling). -/
def fHi : String → Frac := fun _ => ⟨1, 2⟩

/-- A silent analyser readout for every source. -/
def fLo : String → Frac := fun _ => ⟨0, 1⟩

/-- A readout above threshold for `remote-A` only. -/
def fA : String → Frac := fun id => if id = "remote-A" then ⟨1, 2⟩ else ⟨0, 1⟩

/-- Capturing state after `start({})` with store `[local, remote-A]`. -/
def s5a : CaptureState := (start envT snapLA initialState {}).1

/-- `s5a` after one sampler tick in which only `remote-A` is loud. -/
def s5b : CaptureState := (levelSamplerTick envT 0 fA s5a).1

/-- Capturing state after `start({})` with store `[remote-A]`. -/
def sA1 : CaptureState := (start envT snapA1 initialState {}).1

/-- The C4 scenario: level classifications `[above, above, below, below, above]`
sampled at 100 ms spacing. -/
def c4run : CaptureState × List Event :=
  runTimed envT sA1 [(0, fHi), (100, fHi), (200, fLo), (300, fLo), (400, fHi)]

/-- `sA1` after the audio runtime buffers 5 units into the recorder. -/
def sBuf : CaptureState := recorderBuffer sA1 5

/-- `sBuf` after `stop()` resolves. -/
def sStopped : CaptureState := (stop envT sBuf).1

/-- Raw-PCM session whose transcription is disabled, then stopped, then a new
session started: the C8 scenario. -/
def s8 : CaptureState :=
  (start envT snapA1
    ((stop envT ((disableTranscription envT
      ((start envT snapA1 initialState { rawPCM := some true }).1)).1)).1) {}).1

/-- Capturing state after `start({})` with the streamless remote-A track. -/
def s6 : CaptureState := (start envT snapNS initialState {}).1

/-- Store reporting no tracks at all. -/
def snapE : StoreSnapshot := { tracks := [], participants := psAB }

/-- Capturing state after `start({})` with an empty store. -/
def sEmpty : CaptureState := (start envT snapE initialState {}).1

/-! Theorems. -/

/-- C4: for one source with VAD enabled, the per-tick classification sequence
`[above, above, below, below, above]` sampled every 100 ms with a 500 ms
silence delay emits exactly one voice-activity event, `speaking = true`, at
the first above-threshold sample, and no `speaking = false` event; the final
state is still `Speaking` with no pending silence timer (the rebound at
400 ms cancelled the timer set at 200 ms before its 700 ms deadline), so no
`speaking = false` event can fire later either. -/
theorem c4_vad_debounce_single_speaking_event :
    c4run.2.filter isVoiceEv = [Event.voiceActivity "A" true] ∧
    c4run.2.head? = some (Event.voiceActivity "A" true) ∧
    lookupKey c4run.1.tracks "remote-A" =
      some { participantId := "A", displayName := "Alice", hasScriptProcessor := false,
             lastLevel := ⟨7, 10⟩, isSpeaking := true, vadTimeout := none } := by
  decide

/-- C5: after a reconciliation that registered `[local, remote-A]` (state
`s5b`, whose remote-A entry has been marked speaking with level `7/10` by a
sampler tick), a reconciliation against the list `[remote-A, remote-B]`
leaves the registry key set exactly `{remote-A, remote-B}`: the local entry
is removed, `remote-B` is added exactly once as a fresh entry, the existing
`remote-A` entry is kept untouched (not re-added, which would have reset its
level and speaking flag), and no message is posted. -/
theorem c5_reconciliation_diff :
    trackIds (applyOp envT s5b (Op.syncOp snapAB)).1 = ["remote-A", "remote-B"] ∧
    (applyOp envT s5b (Op.syncOp snapAB)).1.previousTrackIds = ["remote-A", "remote-B"] ∧
    lookupKey (applyOp envT s5b (Op.syncOp snapAB)).1.tracks "remote-A" =
      lookupKey s5b.tracks "remote-A" ∧
    lookupKey s5b.tracks "remote-A" =
      some { participantId := "A", displayName := "Alice", hasScriptProcessor := false,
             lastLevel := ⟨7, 10⟩, isSpeaking := true, vadTimeout := none } ∧
    lookupKey (applyOp envT s5b (Op.syncOp snapAB)).1.tracks "local-audio" = none ∧
    lookupKey (applyOp envT s5b (Op.syncOp snapAB)).1.tracks "remote-B" =
      some { participantId := "B", displayName := "Participant", hasScriptProcessor := false,
             lastLevel := ⟨0, 1⟩, isSpeaking := false, vadTimeout := none } ∧
    (applyOp envT s5b (Op.syncOp snapAB)).2 = [] := by
  decide

/-- C3, counterexample: in a session whose recorder holds 5 buffered units,
`stop()` resolves (`isCapturing` is false) with the recorder's final
`dataavailable` delivery still queued, and when the event loop runs it the
still-attached handler posts an `audio-chunk` event — so an audio-chunk event
is emitted after `stop()` resolves, and a pending callback survived `stop()`. -/
theorem c3_chunk_after_stop_counterexample :
    sStopped.isCapturing = false ∧
    (applyOp envT sStopped Op.flushOp).2 = [Event.audioChunk 5 "audio/webm;codecs=opus"] := by
  decide

/-- C6, counterexample: a reported track that is an audio track with a
`jitsiTrack` handle but no underlying live stream is not skipped entirely:
after the reconciliation no registry entry exists for it, yet its key
`remote-A` was added to the current key set (stored as the new previous
snapshot). -/
theorem c6_streamless_key_added_counterexample :
    s6.previousTrackIds = ["remote-A"] ∧ s6.tracks = [] := by
  decide

/-- C8, counterexample: transcription state survives a `stop()`/`start()`
cycle.  Starting a raw-PCM session, calling `disableTranscription()`,
stopping, and starting a new session leaves `getIsTranscriptionEnabled()`
equal to `false`, not the initial default `true` — `cleanup()` never resets
`isTranscriptionEnabled`. -/
theorem c8_transcription_flag_survives_counterexample :
    s8.isCapturing = true ∧ getIsTranscriptionEnabled s8 = false := by
  decide

/-- C1: when not already capturing, `start` with resolved options in
non-raw mode and with both the configured MIME type and the `audio/webm`
fallback unsupported re-raises the failure (the returned error message) after
full cleanup: afterwards `getIsCapturing()` is false and no audio context,
destination node, recorder, track entry, snapshot key, or level interval
remains. -/
theorem c1_unsupported_format_start_fails_clean (env : Env) (snap : StoreSnapshot)
    (o : AudioCaptureOptions) (s : CaptureState)
    (hs : s.isCapturing = false)
    (hraw : (resolveOptions o).rawPCM = false)
    (hm1 : env.isTypeSupported (resolveOptions o).mimeType = false)
    (hm2 : env.isTypeSupported "audio/webm" = false) :
    (start env snap s o).2.2 = some "MediaRecorder does not support audio/webm" ∧
    getIsCapturing (start env snap s o).1 = false ∧
    (start env snap s o).1.tracks = [] ∧
    (start env snap s o).1.audioContextAllocated = false ∧
    (start env snap s o).1.destinationAllocated = false ∧
    (start env snap s o).1.mediaRecorder = none ∧
    (start env snap s o).1.previousTrackIds = [] ∧
    (start env snap s o).1.levelIntervalActive = false := by
  simp [start, hs, hraw, hm1, hm2, cleanup, getIsCapturing]

/-- C1 witness. -/
theorem c1_unsupported_format_start_fails_clean_witness :
    initialState.isCapturing = false ∧
    (resolveOptions {}).rawPCM = false ∧
    envNoFormat.isTypeSupported (resolveOptions {}).mimeType = false ∧
    envNoFormat.isTypeSupported "audio/webm" = false ∧
    ((start envNoFormat snapA1 initialState {}).2.2 =
        some "MediaRecorder does not support audio/webm" ∧
      getIsCapturing (start envNoFormat snapA1 initialState {}).1 = false ∧
      (start envNoFormat snapA1 initialState {}).1.tracks = [] ∧
      (start envNoFormat snapA1 initialState {}).1.audioContextAllocated = false ∧
      (start envNoFormat snapA1 initialState {}).1.destinationAllocated = false ∧
      (start envNoFormat snapA1 initialState {}).1.mediaRecorder = none ∧
      (start envNoFormat snapA1 initialState {}).1.previousTrackIds = [] ∧
      (start envNoFormat snapA1 initialState {}).1.levelIntervalActive = false) :=
  ⟨by decide, by decide, by decide, by decide,
    c1_unsupported_format_start_fails_clean envNoFormat snapA1 {} initialState
      (by decide) (by decide) (by decide) (by decide)⟩

/-- C2: a `start()` call while a session is active is a no-op — state
(including the stored configuration) unchanged, no message posted, no error
raised — and a `stop()` call while no session is active is a no-op — state
unchanged, no message posted.  Hence a second `start()` or a second `stop()`
has the same observable effect as the first call alone. -/
theorem c2_second_start_second_stop_noop (env : Env) (snap : StoreSnapshot)
    (o : AudioCaptureOptions) (s t : CaptureState)
    (hs : s.isCapturing = true) (ht : t.isCapturing = false) :
    start env snap s o = (s, [], none) ∧ stop env t = (t, []) := by
  constructor
  · simp [start, hs]
  · simp [stop, ht]

/-- C2 witness. -/
theorem c2_second_start_second_stop_noop_witness :
    sA1.isCapturing = true ∧ initialState.isCapturing = false ∧
    (start envT snapA1 sA1 {} = (sA1, [], none) ∧
      stop envT initialState = (initialState, [])) :=
  ⟨by decide, by decide,
    c2_second_start_second_stop_noop envT snapA1 {} sA1 initialState (by decide) (by decide)⟩

/-- C8, amended: `stop()` destroys all session state — registry, previous
snapshot, audio graph, recorder, level interval, store subscription — and a
later `start()` builds a fresh configuration; but the transcription-enabled
flag is NOT reset: it keeps its current value across the `stop()`/`start()`
cycle instead of returning to its initial default. -/
theorem c8_stop_resets_all_but_transcription (env : Env) (s : CaptureState)
    (hs : s.isCapturing = true) :
    (stop env s).1.tracks = [] ∧
    (stop env s).1.previousTrackIds = [] ∧
    (stop env s).1.audioContextAllocated = false ∧
    (stop env s).1.destinationAllocated = false ∧
    (stop env s).1.mediaRecorder = none ∧
    (stop env s).1.levelIntervalActive = false ∧
    (stop env s).1.subscribed = false ∧
    (stop env s).1.isCapturing = false ∧
    (stop env s).1.isTranscriptionEnabled = s.isTranscriptionEnabled := by
  simp [stop, hs, cleanup]

/-- C8 witness: a session with transcription disabled. -/
theorem c8_stop_resets_all_but_transcription_witness :
    (disableTranscription envT sA1).1.isCapturing = true ∧
    ((stop envT (disableTranscription envT sA1).1).1.tracks = [] ∧
      (stop envT (disableTranscription envT sA1).1).1.previousTrackIds = [] ∧
      (stop envT (disableTranscription envT sA1).1).1.audioContextAllocated = false ∧
      (stop envT (disableTranscription envT sA1).1).1.destinationAllocated = false ∧
      (stop envT (disableTranscription envT sA1).1).1.mediaRecorder = none ∧
      (stop envT (disableTranscription envT sA1).1).1.levelIntervalActive = false ∧
      (stop envT (disableTranscription envT sA1).1).1.subscribed = false ∧
      (stop envT (disableTranscription envT sA1).1).1.isCapturing = false ∧
      (stop envT (disableTranscription envT sA1).1).1.isTranscriptionEnabled =
        (disableTranscription envT sA1).1.isTranscriptionEnabled) :=
  ⟨by decide, c8_stop_resets_all_but_transcription envT _ (by decide)⟩

/-- C7: in a capturing raw-PCM session, after `disableTranscription()` every
buffer-full (`onaudioprocess`) callback is suppressed — no `pcm-frame` event
is posted — while the level sampler and the VAD silence timers post exactly
the same `audio-levels` and `voice-activity` events as they would have before
the call. -/
theorem c7_transcription_gating (env : Env) (s : CaptureState)
    (hs : s.isCapturing = true) (hraw : s.options.rawPCM = true) :
    (∀ id, (audioProcessTick env (disableTranscription env s).1 id).2 = []) ∧
    (∀ now f, (levelSamplerTick env now f (disableTranscription env s).1).2 =
      (levelSamplerTick env now f s).2) ∧
    (∀ id, (vadTimerFire env (disableTranscription env s).1 id).2 =
      (vadTimerFire env s id).2) := by
  obtain ⟨a1, a2, a3, a4, tr, cap, ten, opt, sub, prev, lvl⟩ := s
  subst hs
  have hd : (disableTranscription env ⟨a1, a2, a3, a4, tr, true, ten, opt, sub, prev, lvl⟩).1 =
      ⟨a1, a2, a3, a4, tr, true, false, opt, sub, prev, lvl⟩ := rfl
  rw [hd]
  refine ⟨?_, ?_, ?_⟩
  · intro id
    dsimp only [audioProcessTick]
    cases h : lookupKey tr id with
    | none => rfl
    | some info =>
        by_cases hsp : info.hasScriptProcessor = false
        · simp [hsp]
        · simp [hsp]
  · intro now f
    dsimp only [levelSamplerTick]
    cases lvl <;> rfl
  · intro id
    dsimp only [vadTimerFire]
    cases h : lookupKey tr id with
    | none => rfl
    | some info =>
        obtain ⟨ip, dn, hsp, ll, isp, vt⟩ := info
        cases vt <;> rfl

/-- `addTrack` never changes the capturing flag. -/
theorem addTrack_isCapturing (s : CaptureState) (a b c : String) :
    (addTrack s a b c).isCapturing = s.isCapturing := by
  unfold addTrack; split_ifs <;> rfl

/-- `removeTrack` never changes the capturing flag. -/
theorem removeTrack_isCapturing (s : CaptureState) (k : String) :
    (removeTrack s k).isCapturing = s.isCapturing := by
  unfold removeTrack; cases lookupKey s.tracks k <;> rfl

/-- The add phase of reconciliation never changes the capturing flag. -/
theorem syncProcess_isCapturing (ps : ParticipantsState) (ts : List ExternalTrack) :
    ∀ (s : CaptureState) (cur : List String),
      (syncProcess ps ts s cur).1.isCapturing = s.isCapturing := by
  induction ts with
  | nil => intro s cur; rfl
  | cons t rest ih =>
      intro s cur
      simp only [syncProcess]
      split_ifs <;> simp [ih, addTrack_isCapturing]

/-- The removal phase of reconciliation never changes the capturing flag. -/
theorem removeVanished_isCapturing (cur : List String) (prev : List String) :
    ∀ s : CaptureState, (removeVanished cur prev s).isCapturing = s.isCapturing := by
  induction prev with
  | nil => intro s; rfl
  | cons k rest ih =>
      intro s
      simp only [removeVanished]
      split_ifs <;> simp [ih, removeTrack_isCapturing]

/-- Reconciliation never changes the capturing flag. -/
theorem syncTracksFromStore_isCapturing (snap : StoreSnapshot) (s : CaptureState) :
    (syncTracksFromStore snap s).isCapturing = s.isCapturing := by
  unfold syncTracksFromStore
  split_ifs with h
  · rfl
  · simp [removeVanished_isCapturing, syncProcess_isCapturing]

/-- `cleanup` always yields a fully released state. -/
theorem cleanup_clean (s : CaptureState) : NotCapturingClean (cleanup s) := by
  simp [cleanup, NotCapturingClean]

/-- The audio-process callback never changes the state. -/
theorem audioProcessTick_fst (env : Env) (s : CaptureState) (id : String) :
    (audioProcessTick env s id).1 = s := by
  unfold audioProcessTick
  cases lookupKey s.tracks id with
  | none => rfl
  | some info =>
      dsimp only
      split_ifs <;> rfl

/-- A successful (non-throwing) `start` from a non-capturing state leaves the
capturing flag set. -/
theorem start_isCapturing_of_ok (env : Env) (snap : StoreSnapshot) (s : CaptureState)
    (o : AudioCaptureOptions) (hc : s.isCapturing = false)
    (hf : ¬((resolveOptions o).rawPCM = false ∧
      env.isTypeSupported (resolveOptions o).mimeType = false ∧
      env.isTypeSupported "audio/webm" = false)) :
    (start env snap s o).1.isCapturing = true := by
  simp only [start, hc, Bool.false_eq_true, if_false, if_neg hf]
  simp [syncTracksFromStore_isCapturing, apply_ite CaptureState.isCapturing]

/-- One operation preserves the invariant "not capturing implies every
per-source and graph resource is released". -/
theorem applyOp_invariant (env : Env) (s : CaptureState) (op : Op)
    (h : s.isCapturing = false → NotCapturingClean s) :
    (applyOp env s op).1.isCapturing = false → NotCapturingClean (applyOp env s op).1 := by
  cases op with
  | startOp snap o =>
      by_cases hc : s.isCapturing = true
      · simp [applyOp, start, hc]
      · have hc2 : s.isCapturing = false := by revert hc; cases s.isCapturing <;> simp
        by_cases hf : (resolveOptions o).rawPCM = false ∧
            env.isTypeSupported (resolveOptions o).mimeType = false ∧
            env.isTypeSupported "audio/webm" = false
        · intro _
          simp only [applyOp, start, hc2, Bool.false_eq_true, if_false, if_pos hf]
          exact cleanup_clean _
        · intro hx
          rw [show (applyOp env s (Op.startOp snap o)).1 = (start env snap s o).1 from rfl,
            start_isCapturing_of_ok env snap s o hc2 hf] at hx
          cases hx
  | stopOp =>
      by_cases hc : s.isCapturing = false
      · simpa [applyOp, stop, hc] using h
      · intro _
        have : (applyOp env s Op.stopOp).1 = cleanup s := by
          simp [applyOp, stop, hc]
        rw [this]
        exact cleanup_clean s
  | syncOp snap =>
      by_cases hc : s.isCapturing = false
      · simpa [applyOp, syncTracksFromStore, hc] using h
      · intro hx
        rw [show (applyOp env s (Op.syncOp snap)).1 = syncTracksFromStore snap s from rfl,
          syncTracksFromStore_isCapturing] at hx
        exact absurd hx hc
  | addTrackOp a b c =>
      by_cases hc : s.isCapturing = false
      · have hcl := h hc
        have : addTrack s a b c = s := by
          unfold addTrack
          rw [if_pos (Or.inl hcl.2.2.1)]
        simpa [applyOp, this] using h
      · intro hx
        rw [show (applyOp env s (Op.addTrackOp a b c)).1 = addTrack s a b c from rfl,
          addTrack_isCapturing] at hx
        exact absurd hx hc
  | removeTrackOp k =>
      by_cases hc : s.isCapturing = false
      · have hcl := h hc
        have : removeTrack s k = s := by
          unfold removeTrack
          rw [hcl.1]
          rfl
        simpa [applyOp, this] using h
      · intro hx
        rw [show (applyOp env s (Op.removeTrackOp k)).1 = removeTrack s k from rfl,
          removeTrack_isCapturing] at hx
        exact absurd hx hc
  | enableTranscriptionOp =>
      by_cases hc : s.isCapturing = false
      · simpa [applyOp, enableTranscription, hc] using h
      · intro hx
        have : (applyOp env s Op.enableTranscriptionOp).1.isCapturing = s.isCapturing := by
          simp [applyOp, enableTranscription, hc]
        rw [this] at hx
        exact absurd hx hc
  | disableTranscriptionOp =>
      by_cases hc : s.isCapturing = false
      · simpa [applyOp, disableTranscription, hc] using h
      · intro hx
        have : (applyOp env s Op.disableTranscriptionOp).1.isCapturing = s.isCapturing := by
          simp [applyOp, disableTranscription, hc]
        rw [this] at hx
        exact absurd hx hc
  | toggleTranscriptionOp =>
      by_cases hc : s.isCapturing = false
      · simpa [applyOp, toggleTranscription, enableTranscription, disableTranscription, hc,
          apply_ite] using h
      · intro hx
        have : (applyOp env s Op.toggleTranscriptionOp).1.isCapturing = s.isCapturing := by
          simp [applyOp, toggleTranscription, enableTranscription, disableTranscription, hc,
            apply_ite]
        rw [this] at hx
        exact absurd hx hc
  | levelTickOp now f =>
      by_cases hc : s.isCapturing = false
      · have hcl := h hc
        simpa [applyOp, levelSamplerTick, hcl.2.2.2.2.1] using h
      · intro hx
        have : (applyOp env s (Op.levelTickOp now f)).1.isCapturing = s.isCapturing := by
          simp only [applyOp, levelSamplerTick]
          split_ifs <;> rfl
        rw [this] at hx
        exact absurd hx hc
  | vadFireOp k =>
      by_cases hc : s.isCapturing = false
      · have hcl := h hc
        have hemp : lookupKey s.tracks k = none := by rw [hcl.1]; rfl
        simpa [applyOp, vadTimerFire, hemp] using h
      · intro hx
        have : (applyOp env s (Op.vadFireOp k)).1.isCapturing = s.isCapturing := by
          simp only [applyOp, vadTimerFire]
          cases lookupKey s.tracks k with
          | none => rfl
          | some info =>
              obtain ⟨ip, dn, hsp, ll, isp, vt⟩ := info
              cases vt <;> rfl
        rw [this] at hx
        exact absurd hx hc
  | audioProcessOp k =>
      rw [show (applyOp env s (Op.audioProcessOp k)).1 = (audioProcessTick env s k).1 from rfl,
        audioProcessTick_fst]
      exact h
  | bufferOp n =>
      by_cases hc : s.isCapturing = false
      · have hcl := h hc
        have : recorderBuffer s n = s := by
          unfold recorderBuffer
          rw [hcl.2.2.2.2.2]
        simpa [applyOp, this] using h
      · intro hx
        have : (applyOp env s (Op.bufferOp n)).1.isCapturing = s.isCapturing := by
          simp only [applyOp, recorderBuffer]
          cases s.mediaRecorder with
          | none => rfl
          | some p => cases p; rfl
        rw [this] at hx
        exact absurd hx hc
  | recorderDataOp =>
      by_cases hc : s.isCapturing = false
      · have hcl := h hc
        have : (recorderDataTick env s).1 = s := by
          unfold recorderDataTick
          rw [hcl.2.2.2.2.2]
        simpa [applyOp, this] using h
      · intro hx
        have : (applyOp env s Op.recorderDataOp).1.isCapturing = s.isCapturing := by
          simp only [applyOp, recorderDataTick]
          cases s.mediaRecorder with
          | none => rfl
          | some p => cases p; rfl
        rw [this] at hx
        exact absurd hx hc
  | recorderErrorOp =>
      have : (applyOp env s Op.recorderErrorOp).1 = s := by
        simp only [applyOp, recorderErrorTick]
        cases s.mediaRecorder <;> rfl
      rw [this]
      exact h
  | flushOp =>
      cases hp : s.pendingFlush with
      | nil =>
          have : (applyOp env s Op.flushOp).1 = s := by
            simp [applyOp, recorderFlushFire, hp]
          rw [this]
          exact h
      | cons q rest =>
          obtain ⟨b, m⟩ := q
          have : (applyOp env s Op.flushOp).1 = { s with pendingFlush := rest } := by
            simp [applyOp, recorderFlushFire, hp]
          rw [this]
          intro hx
          have hcl := h hx
          exact ⟨hcl.1, hcl.2.1, hcl.2.2.1, hcl.2.2.2.1, hcl.2.2.2.2.1, hcl.2.2.2.2.2⟩

/-- The invariant is preserved along any run. -/
theorem runOps_invariant (env : Env) :
    ∀ (ops : List Op) (s : CaptureState),
      (s.isCapturing = false → NotCapturingClean s) →
      (runOps env s ops).1.isCapturing = false → NotCapturingClean (runOps env s ops).1 := by
  intro ops
  induction ops with
  | nil => intro s h; exact h
  | cons op rest ih =>
      intro s h
      simp only [runOps]
      exact ih _ (applyOp_invariant env s op h)

/-- C9: in every state reachable from the initial state by any sequence of
public operations and environment callbacks (start, stop, addTrack,
removeTrack, transcription toggles, reconciliation, sampler ticks, VAD timer
and recorder callbacks), if `isCapturing` is false then the track registry —
and with it every per-source VAD timer — and the previous-snapshot key set
are empty. -/
theorem c9_registry_empty_when_not_capturing (env : Env) (ops : List Op)
    (h : (runOps env initialState ops).1.isCapturing = false) :
    (runOps env initialState ops).1.tracks = [] ∧
    (runOps env initialState ops).1.previousTrackIds = [] := by
  have h0 : initialState.isCapturing = false → NotCapturingClean initialState := by
    intro _
    exact ⟨rfl, rfl, rfl, rfl, rfl, rfl⟩
  have := runOps_invariant env ops initialState h0 h
  exact ⟨this.1, this.2.1⟩

/-- C9 witness: a start/stop run ends not capturing with empty registry. -/
theorem c9_registry_empty_when_not_capturing_witness :
    (runOps envT initialState [Op.startOp snapA1 {}, Op.stopOp]).1.isCapturing = false ∧
    ((runOps envT initialState [Op.startOp snapA1 {}, Op.stopOp]).1.tracks = [] ∧
      (runOps envT initialState [Op.startOp snapA1 {}, Op.stopOp]).1.previousTrackIds = []) :=
  ⟨by decide, c9_registry_empty_when_not_capturing envT [Op.startOp snapA1 {}, Op.stopOp]
    (by decide)⟩

/-- In a quiescent (stopped) state, any operation other than `start` leaves
the state quiescent and can post nothing but the recorder's queued final
audio-chunk. -/
theorem applyOp_quiescent (env : Env) (s : CaptureState) (op : Op)
    (hq : Quiescent s) (hop : op.isStart = false) :
    Quiescent (applyOp env s op).1 ∧
      ∀ e ∈ (applyOp env s op).2, e.isChunk = true := by
  obtain ⟨hcap, htr, hlvl, hctx, hdst, hrec⟩ := hq
  cases op with
  | startOp snap o => cases hop
  | stopOp =>
      have happ : applyOp env s Op.stopOp = (s, []) := by simp [applyOp, stop, hcap]
      rw [happ]
      exact ⟨⟨hcap, htr, hlvl, hctx, hdst, hrec⟩, by simp⟩
  | syncOp snap =>
      have happ : applyOp env s (Op.syncOp snap) = (s, []) := by
        simp [applyOp, syncTracksFromStore, hcap]
      rw [happ]
      exact ⟨⟨hcap, htr, hlvl, hctx, hdst, hrec⟩, by simp⟩
  | addTrackOp a b c =>
      have happ : applyOp env s (Op.addTrackOp a b c) = (s, []) := by
        simp [applyOp, addTrack, hctx]
      rw [happ]
      exact ⟨⟨hcap, htr, hlvl, hctx, hdst, hrec⟩, by simp⟩
  | removeTrackOp k =>
      have happ : applyOp env s (Op.removeTrackOp k) = (s, []) := by
        simp [applyOp, removeTrack, htr, lookupKey]
      rw [happ]
      exact ⟨⟨hcap, htr, hlvl, hctx, hdst, hrec⟩, by simp⟩
  | enableTranscriptionOp =>
      have happ : applyOp env s Op.enableTranscriptionOp = (s, []) := by
        simp [applyOp, enableTranscription, hcap]
      rw [happ]
      exact ⟨⟨hcap, htr, hlvl, hctx, hdst, hrec⟩, by simp⟩
  | disableTranscriptionOp =>
      have happ : applyOp env s Op.disableTranscriptionOp = (s, []) := by
        simp [applyOp, disableTranscription, hcap]
      rw [happ]
      exact ⟨⟨hcap, htr, hlvl, hctx, hdst, hrec⟩, by simp⟩
  | toggleTranscriptionOp =>
      have happ : applyOp env s Op.toggleTranscriptionOp = (s, []) := by
        by_cases ht : s.isTranscriptionEnabled = true <;>
          simp [applyOp, toggleTranscription, enableTranscription, disableTranscription,
            hcap, ht]
      rw [happ]
      exact ⟨⟨hcap, htr, hlvl, hctx, hdst, hrec⟩, by simp⟩
  | levelTickOp now f =>
      have happ : applyOp env s (Op.levelTickOp now f) = (s, []) := by
        simp [applyOp, levelSamplerTick, hlvl]
      rw [happ]
      exact ⟨⟨hcap, htr, hlvl, hctx, hdst, hrec⟩, by simp⟩
  | vadFireOp k =>
      have happ : applyOp env s (Op.vadFireOp k) = (s, []) := by
        simp [applyOp, vadTimerFire, htr, lookupKey]
      rw [happ]
      exact ⟨⟨hcap, htr, hlvl, hctx, hdst, hrec⟩, by simp⟩
  | audioProcessOp k =>
      have happ : applyOp env s (Op.audioProcessOp k) = (s, []) := by
        simp [applyOp, audioProcessTick, htr, lookupKey]
      rw [happ]
      exact ⟨⟨hcap, htr, hlvl, hctx, hdst, hrec⟩, by simp⟩
  | bufferOp n =>
      have happ : applyOp env s (Op.bufferOp n) = (s, []) := by
        simp [applyOp, recorderBuffer, hrec]
      rw [happ]
      exact ⟨⟨hcap, htr, hlvl, hctx, hdst, hrec⟩, by simp⟩
  | recorderDataOp =>
      have happ : applyOp env s Op.recorderDataOp = (s, []) := by
        simp [applyOp, recorderDataTick, hrec]
      rw [happ]
      exact ⟨⟨hcap, htr, hlvl, hctx, hdst, hrec⟩, by simp⟩
  | recorderErrorOp =>
      have happ : applyOp env s Op.recorderErrorOp = (s, []) := by
        simp [applyOp, recorderErrorTick, hrec]
      rw [happ]
      exact ⟨⟨hcap, htr, hlvl, hctx, hdst, hrec⟩, by simp⟩
  | flushOp =>
      cases hp : s.pendingFlush with
      | nil =>
          have happ : applyOp env s Op.flushOp = (s, []) := by
            simp [applyOp, recorderFlushFire, hp]
          rw [happ]
          exact ⟨⟨hcap, htr, hlvl, hctx, hdst, hrec⟩, by simp⟩
      | cons q rest =>
          obtain ⟨b, m⟩ := q
          have happ : applyOp env s Op.flushOp =
              ({ s with pendingFlush := rest },
                if 0 < b then sendToParent env (Event.audioChunk b m) else []) := by
            simp [applyOp, recorderFlushFire, hp]
          rw [happ]
          refine ⟨⟨hcap, htr, hlvl, hctx, hdst, hrec⟩, ?_⟩
          intro e he
          simp only [sendToParent] at he
          split_ifs at he <;> simp_all [Event.isChunk]

/-- Quiescence is preserved along any start-free run, during which only
audio-chunk events can be posted. -/
theorem runOps_quiescent (env : Env) :
    ∀ (ops : List Op), (∀ op ∈ ops, op.isStart = false) →
      ∀ s : CaptureState, Quiescent s →
        Quiescent (runOps env s ops).1 ∧ ∀ e ∈ (runOps env s ops).2, e.isChunk = true := by
  intro ops
  induction ops with
  | nil => intro _ s hq; exact ⟨hq, by simp [runOps]⟩
  | cons op rest ih =>
      intro hops s hq
      have h1 := applyOp_quiescent env s op hq (hops op (by simp))
      have h2 := ih (fun x hx => hops x (by simp [hx])) (applyOp env s op).1 h1.1
      refine ⟨?_, ?_⟩
      · simpa [runOps] using h2.1
      · intro e he
        simp only [runOps, List.mem_append] at he
        cases he with
        | inl hm => exact h1.2 e hm
        | inr hm => exact h2.2 e hm

/-- C3, amended: `stop()` synchronously cancels the level-sampling interval
and removes every track entry (with its VAD silence timer and graph
connections), so after `stop()` resolves no pcm-frame, audio-levels, or
voice-activity event is ever emitted by any start-free sequence of callbacks;
the only event that can still be posted is the recorder's queued final
audio-chunk delivery. -/
theorem c3_post_stop_only_final_chunk (env : Env) (s : CaptureState)
    (hs : s.isCapturing = true) (ops : List Op)
    (hops : ∀ op ∈ ops, op.isStart = false) :
    (stop env s).1.levelIntervalActive = false ∧
    (stop env s).1.tracks = [] ∧
    ∀ e ∈ (runOps env (stop env s).1 ops).2, e.isChunk = true := by
  have hst : (stop env s).1 = cleanup s := by simp [stop, hs]
  have hq : Quiescent (cleanup s) := by simp [cleanup, Quiescent]
  rw [hst]
  exact ⟨hq.2.2.1, hq.2.1, (runOps_quiescent env ops hops (cleanup s) hq).2⟩

/-- C3, amended, witness. -/
theorem c3_post_stop_only_final_chunk_witness :
    sBuf.isCapturing = true ∧
    (∀ op ∈ [Op.flushOp], op.isStart = false) ∧
    ((stop envT sBuf).1.levelIntervalActive = false ∧
      (stop envT sBuf).1.tracks = [] ∧
      ∀ e ∈ (runOps envT (stop envT sBuf).1 [Op.flushOp]).2, e.isChunk = true) :=
  ⟨by decide, by decide,
    c3_post_stop_only_final_chunk envT sBuf (by decide) [Op.flushOp] (by decide)⟩

/-- Removal reconciliation is the identity on a state with an empty registry. -/
theorem removeVanished_of_tracks_nil (cur : List String) :
    ∀ (prev : List String) (s : CaptureState), s.tracks = [] →
      removeVanished cur prev s = s := by
  intro prev
  induction prev with
  | nil => intro s h; rfl
  | cons k rest ih =>
      intro s h
      have hrt : removeTrack s k = s := by
        unfold removeTrack; rw [h]; rfl
      simp only [removeVanished]
      split_ifs <;> simp [ih s h, hrt]

/-- C6, amended: in a capturing session with an empty registry, a single
reported track that is not audio-type, or lacks the `jitsiTrack` handle, or
whose locality is excluded by `includeLocal`/`includeRemote`, is skipped
entirely (its key is not added to the current key set and no entry is
created); but a track passing those checks whose underlying live stream is
merely missing still has its key added to the current key set, even though no
registry entry is created for it. -/
theorem c6_skip_conditions_amended (s : CaptureState) (ps : ParticipantsState)
    (t : ExternalTrack)
    (hc : s.isCapturing = true) (_hctx : s.audioContextAllocated = true)
    (_hdst : s.destinationAllocated = true) (htr : s.tracks = []) :
    ((t.mediaType ≠ "audio" ∨ t.hasJitsiTrack = false ∨
        (t.isLocal = true ∧ s.options.includeLocal = false) ∨
        (t.isLocal = false ∧ s.options.includeRemote = false)) →
      (syncTracksFromStore ⟨[t], ps⟩ s).previousTrackIds = [] ∧
        (syncTracksFromStore ⟨[t], ps⟩ s).tracks = []) ∧
    (t.mediaType = "audio" → t.hasJitsiTrack = true →
      (t.isLocal = true → s.options.includeLocal = true) →
      (t.isLocal = false → s.options.includeRemote = true) →
      t.hasStream = false →
      (syncTracksFromStore ⟨[t], ps⟩ s).previousTrackIds = [trackKey t] ∧
        (syncTracksFromStore ⟨[t], ps⟩ s).tracks = []) := by
  constructor
  · intro hskip
    have hrun : syncProcess ps [t] s [] = (s, []) := by
      rcases hskip with hm | hj | ⟨hl, hin⟩ | ⟨hl, hin⟩
      · simp [syncProcess, hm]
      · by_cases hm : t.mediaType = "audio" <;> simp [syncProcess, hm, hj]
      · by_cases hm : t.mediaType = "audio" <;>
          by_cases hj : t.hasJitsiTrack = false <;>
            simp [syncProcess, hm, hj, hl, hin]
      · by_cases hm : t.mediaType = "audio" <;>
          by_cases hj : t.hasJitsiTrack = false <;>
            simp [syncProcess, hm, hj, hl, hin]
    have heq : syncTracksFromStore ⟨[t], ps⟩ s = { s with previousTrackIds := [] } := by
      unfold syncTracksFromStore
      rw [if_neg (by simp [hc])]
      simp only [hrun]
      rw [removeVanished_of_tracks_nil [] s.previousTrackIds s htr]
    exact ⟨by rw [heq], by rw [heq]; exact htr⟩
  · intro hm hj hlin hrin hstream
    have hrun : syncProcess ps [t] s [] = (s, [trackKey t]) := by
      by_cases hl : t.isLocal = true
      · have hinc := hlin hl
        simp [syncProcess, hm, hj, hl, hinc, htr, lookupKey, setAdd, hasStr, hstream, trackKey]
      · have hl2 : t.isLocal = false := by revert hl; cases t.isLocal <;> simp
        have hinc := hrin hl2
        simp [syncProcess, hm, hj, hl2, hinc, htr, lookupKey, setAdd, hasStr, hstream, trackKey]
    have heq : syncTracksFromStore ⟨[t], ps⟩ s =
        { s with previousTrackIds := [trackKey t] } := by
      unfold syncTracksFromStore
      rw [if_neg (by simp [hc])]
      simp only [hrun]
      rw [removeVanished_of_tracks_nil [trackKey t] s.previousTrackIds s htr]
    exact ⟨by rw [heq], by rw [heq]; exact htr⟩

/-- C6, amended, witness. -/
theorem c6_skip_conditions_amended_witness :
    sEmpty.isCapturing = true ∧
    sEmpty.audioContextAllocated = true ∧
    sEmpty.destinationAllocated = true ∧
    sEmpty.tracks = [] ∧
    (((trackNoStream.mediaType ≠ "audio" ∨ trackNoStream.hasJitsiTrack = false ∨
        (trackNoStream.isLocal = true ∧ sEmpty.options.includeLocal = false) ∨
        (trackNoStream.isLocal = false ∧ sEmpty.options.includeRemote = false)) →
      (syncTracksFromStore ⟨[trackNoStream], psAB⟩ sEmpty).previousTrackIds = [] ∧
        (syncTracksFromStore ⟨[trackNoStream], psAB⟩ sEmpty).tracks = []) ∧
    (trackNoStream.mediaType = "audio" → trackNoStream.hasJitsiTrack = true →
      (trackNoStream.isLocal = true → sEmpty.options.includeLocal = true) →
      (trackNoStream.isLocal = false → sEmpty.options.includeRemote = true) →
      trackNoStream.hasStream = false →
      (syncTracksFromStore ⟨[trackNoStream], psAB⟩ sEmpty).previousTrackIds =
          [trackKey trackNoStream] ∧
        (syncTracksFromStore ⟨[trackNoStream], psAB⟩ sEmpty).tracks = [])) :=
  ⟨by decide, by decide, by decide, by decide,
    c6_skip_conditions_amended sEmpty psAB trackNoStream
      (by decide) (by decide) (by decide) (by decide)⟩

/-- The VAD state transition does not depend on the environment. -/
theorem handleVAD_fst (e1 e2 : Env) (now : Nat) (i : TrackInfo) (b : Bool) :
    (handleVAD e1 now i b).1 = (handleVAD e2 now i b).1 := by
  simp only [handleVAD]
  split_ifs <;> rfl

/-- `handleVAD` posts nothing when the page is not embedded. -/
theorem handleVAD_silent (e : Env) (hg : emitGuard e = false) (now : Nat) (i : TrackInfo)
    (b : Bool) : (handleVAD e now i b).2 = [] := by
  simp only [handleVAD, sendToParent]
  split_ifs <;> simp_all

/-- The sampler loop body computes the same tracks and level snapshot in any
environment. -/
theorem levelTickAux_fst (e1 e2 : Env) (opts : ResolvedOptions) (now : Nat)
    (f : String → Frac) :
    ∀ (ts : List (String × TrackInfo)) (acc : List (String × Frac)),
      (levelTickAux e1 opts now f ts acc).1 = (levelTickAux e2 opts now f ts acc).1 ∧
      (levelTickAux e1 opts now f ts acc).2.1 = (levelTickAux e2 opts now f ts acc).2.1 := by
  intro ts
  induction ts with
  | nil => intro acc; exact ⟨rfl, rfl⟩
  | cons p rest ih =>
      intro acc
      obtain ⟨id, info⟩ := p
      simp only [levelTickAux]
      by_cases hv : opts.enableVAD = true
      · simp only [hv, eq_self_iff_true, if_true]
        exact ⟨by rw [(ih _).1, handleVAD_fst e1 e2], (ih _).2⟩
      · have hv2 : opts.enableVAD = false := by revert hv; cases opts.enableVAD <;> simp
        simp only [hv2, Bool.false_eq_true, if_false]
        exact ⟨by rw [(ih _).1], (ih _).2⟩

/-- The sampler loop body posts nothing when the page is not embedded. -/
theorem levelTickAux_silent (e : Env) (hg : emitGuard e = false) (opts : ResolvedOptions)
    (now : Nat) (f : String → Frac) :
    ∀ (ts : List (String × TrackInfo)) (acc : List (String × Frac)),
      (levelTickAux e opts now f ts acc).2.2 = [] := by
  intro ts
  induction ts with
  | nil => intro acc; rfl
  | cons p rest ih =>
      intro acc
      obtain ⟨id, info⟩ := p
      simp only [levelTickAux]
      by_cases hv : opts.enableVAD = true
      · simp [hv, handleVAD_silent e hg, ih]
      · have hv2 : opts.enableVAD = false := by revert hv; cases opts.enableVAD <;> simp
        simp [hv2, ih]

/-- The sampler tick computes the same state in any environment. -/
theorem levelSamplerTick_fst (e1 e2 : Env) (now : Nat) (f : String → Frac)
    (s : CaptureState) :
    (levelSamplerTick e1 now f s).1 = (levelSamplerTick e2 now f s).1 := by
  simp only [levelSamplerTick]
  split_ifs <;>
    first
      | rfl
      | (dsimp only
         rw [(levelTickAux_fst e1 e2 s.options now f s.tracks []).1])

/-- The sampler tick posts nothing when the page is not embedded. -/
theorem levelSamplerTick_silent (e : Env) (hg : emitGuard e = false) (now : Nat)
    (f : String → Frac) (s : CaptureState) :
    (levelSamplerTick e now f s).2 = [] := by
  unfold levelSamplerTick
  split_ifs <;> simp [levelTickAux_silent e hg, sendToParent, hg]

/-- `start` computes the same state under any parent-window configuration. -/
theorem start_fst_swap (e : Env) (hp pd : Bool) (snap : StoreSnapshot) (s : CaptureState)
    (o : AudioCaptureOptions) :
    (start ⟨hp, pd, e.isTypeSupported⟩ snap s o).1 = (start e snap s o).1 := by
  unfold start
  dsimp only
  split_ifs <;> rfl

/-- `start` posts nothing when the page is not embedded. -/
theorem start_events_silent (e : Env) (hg : emitGuard e = false) (snap : StoreSnapshot)
    (s : CaptureState) (o : AudioCaptureOptions) :
    (start e snap s o).2.1 = [] := by
  simp only [start, sendStatusToParent, hg, Bool.false_eq_true, if_false]
  split_ifs <;> rfl

/-- C10: every outbound message of the capture manager — for each of the six
event kinds — is posted only when a parent window exists and differs from the
page's own window: with the same format support, any operation computes the
same successor state whatever the parent-window configuration, and when the
page is not embedded (`hasParent && parentDistinct` false) the operation posts
nothing at all. -/
theorem c10_parent_gating (env : Env) (hp pd : Bool) (s : CaptureState) (op : Op) :
    (applyOp ⟨hp, pd, env.isTypeSupported⟩ s op).1 = (applyOp env s op).1 ∧
    ((hp && pd) = false → (applyOp ⟨hp, pd, env.isTypeSupported⟩ s op).2 = []) := by
  have hg : (hp && pd) = false → emitGuard ⟨hp, pd, env.isTypeSupported⟩ = false :=
    fun h => h
  cases op with
  | startOp snap o =>
      exact ⟨start_fst_swap env hp pd snap s o,
        fun h => start_events_silent _ (hg h) snap s o⟩
  | stopOp =>
      refine ⟨?_, ?_⟩
      · show (stop _ s).1 = (stop env s).1
        unfold stop; split_ifs <;> rfl
      · intro h
        show (stop _ s).2 = []
        unfold stop sendStatusToParent
        split_ifs <;> simp_all
  | syncOp snap => exact ⟨rfl, fun _ => rfl⟩
  | addTrackOp a b c => exact ⟨rfl, fun _ => rfl⟩
  | removeTrackOp k => exact ⟨rfl, fun _ => rfl⟩
  | enableTranscriptionOp =>
      refine ⟨?_, ?_⟩
      · show (enableTranscription _ s).1 = (enableTranscription env s).1
        unfold enableTranscription; split_ifs <;> rfl
      · intro h
        show (enableTranscription _ s).2 = []
        unfold enableTranscription sendTranscriptionStatusToParent
        split_ifs <;> simp_all
  | disableTranscriptionOp =>
      refine ⟨?_, ?_⟩
      · show (disableTranscription _ s).1 = (disableTranscription env s).1
        unfold disableTranscription; split_ifs <;> rfl
      · intro h
        show (disableTranscription _ s).2 = []
        unfold disableTranscription sendTranscriptionStatusToParent
        split_ifs <;> simp_all
  | toggleTranscriptionOp =>
      refine ⟨?_, ?_⟩
      · show (toggleTranscription _ s).1.1 = (toggleTranscription env s).1.1
        unfold toggleTranscription enableTranscription disableTranscription
        split_ifs <;> rfl
      · intro h
        show (toggleTranscription _ s).1.2 = []
        unfold toggleTranscription enableTranscription disableTranscription
          sendTranscriptionStatusToParent
        split_ifs <;> simp_all
  | levelTickOp now f =>
      exact ⟨levelSamplerTick_fst _ env now f s,
        fun h => levelSamplerTick_silent _ (hg h) now f s⟩
  | vadFireOp k =>
      refine ⟨?_, ?_⟩
      · show (vadTimerFire _ s k).1 = (vadTimerFire env s k).1
        unfold vadTimerFire
        cases lookupKey s.tracks k with
        | none => rfl
        | some info =>
            obtain ⟨ip, dn, hsp, ll, isp, vt⟩ := info
            cases vt <;> rfl
      · intro h
        show (vadTimerFire _ s k).2 = []
        unfold vadTimerFire sendToParent
        cases lookupKey s.tracks k with
        | none => rfl
        | some info =>
            obtain ⟨ip, dn, hsp, ll, isp, vt⟩ := info
            cases vt <;> simp_all
  | audioProcessOp k =>
      refine ⟨?_, ?_⟩
      · show (audioProcessTick _ s k).1 = (audioProcessTick env s k).1
        rw [audioProcessTick_fst, audioProcessTick_fst]
      · intro h
        show (audioProcessTick _ s k).2 = []
        unfold audioProcessTick sendToParent
        cases lookupKey s.tracks k with
        | none => rfl
        | some info =>
            dsimp only
            split_ifs <;> simp_all
  | bufferOp n => exact ⟨rfl, fun _ => rfl⟩
  | recorderDataOp =>
      refine ⟨?_, ?_⟩
      · show (recorderDataTick _ s).1 = (recorderDataTick env s).1
        unfold recorderDataTick
        cases s.mediaRecorder with
        | none => rfl
        | some p => cases p; rfl
      · intro h
        show (recorderDataTick _ s).2 = []
        unfold recorderDataTick sendToParent
        cases s.mediaRecorder with
        | none => rfl
        | some p =>
            cases p
            dsimp only
            split_ifs <;> simp_all
  | recorderErrorOp =>
      refine ⟨?_, ?_⟩
      · show (recorderErrorTick _ s).1 = (recorderErrorTick env s).1
        unfold recorderErrorTick
        cases s.mediaRecorder <;> rfl
      · intro h
        show (recorderErrorTick _ s).2 = []
        unfold recorderErrorTick sendStatusToParent
        cases s.mediaRecorder <;> simp_all
  | flushOp =>
      refine ⟨?_, ?_⟩
      · show (recorderFlushFire _ s).1 = (recorderFlushFire env s).1
        unfold recorderFlushFire
        cases s.pendingFlush with
        | nil => rfl
        | cons q rest => cases q; rfl
      · intro h
        show (recorderFlushFire _ s).2 = []
        unfold recorderFlushFire sendToParent
        cases s.pendingFlush with
        | nil => rfl
        | cons q rest =>
            cases q
            dsimp only
            split_ifs <;> simp_all

/-- C10 witness: with no parent window, stopping a capturing session changes
the state exactly as when embedded but posts nothing. -/
theorem c10_parent_gating_witness :
    (applyOp ⟨false, true, envT.isTypeSupported⟩ sA1 Op.stopOp).1 =
        (applyOp envT sA1 Op.stopOp).1 ∧
    (applyOp ⟨false, true, envT.isTypeSupported⟩ sA1 Op.stopOp).2 = [] :=
  ⟨(c10_parent_gating envT false true sA1 Op.stopOp).1,
    (c10_parent_gating envT false true sA1 Op.stopOp).2 rfl⟩

/-- C7 witness. -/
theorem c7_transcription_gating_witness :
    (start envT snapA1 initialState { rawPCM := some true }).1.isCapturing = true ∧
    (start envT snapA1 initialState { rawPCM := some true }).1.options.rawPCM = true ∧
    ((∀ id, (audioProcessTick envT
        (disableTranscription envT
          (start envT snapA1 initialState { rawPCM := some true }).1).1 id).2 = []) ∧
      (∀ now f, (levelSamplerTick envT now f
        (disableTranscription envT
          (start envT snapA1 initialState { rawPCM := some true }).1).1).2 =
        (levelSamplerTick envT now f
          (start envT snapA1 initialState { rawPCM := some true }).1).2) ∧
      (∀ id, (vadTimerFire envT
        (disableTranscription envT
          (start envT snapA1 initialState { rawPCM := some true }).1).1 id).2 =
        (vadTimerFire envT
          (start envT snapA1 initialState { rawPCM := some true }).1 id).2)) :=
  ⟨by decide, by decide,
    c7_transcription_gating envT _ (by decide) (by decide)⟩

end AudioStreamCapture
